import Mathlib

/-!
Verification of the tit repository: six copies of a minimal Flask HTTP
service (src/data/projects/<uuid>/server.py), identical up to an embedded
project-identifier string.  Each server exposes three routes:

  GET  /health        -> {status: "healthy", timestamp, project}
  GET  /api/projects  -> {message: "Projects API endpoint", project, timestamp}
  POST /api/projects  -> {message: "Project created", data: <parsed body>, timestamp}

and a __main__ block reading the PORT environment variable.

The embedding below is a shallow one: the impure clock reading
(datetime.now().isoformat()) is passed to each handler as a string input,
and the environment is a function from variable names to optional strings.
JSON values are modelled by a mutual inductive (objects keep insertion
order, as Python dicts and flask.jsonify do).
-/

mutual

/-- JSON values as produced by the Python json machinery: null, booleans,
numbers, strings, arrays and objects.  Objects are ordered association
lists, matching Python dict insertion order.  Numbers are modelled as
integers; none of the handlers inspects numeric values, so the choice of
number representation is irrelevant to every property proved here. -/
inductive Json where
  | null : Json
  | jbool : Bool → Json
  | jnum : Int → Json
  | jstr : String → Json
  | jarr : JsonArr → Json
  | jobj : JsonObj → Json

inductive JsonArr where
  | nil : JsonArr
  | cons : Json → JsonArr → JsonArr

inductive JsonObj where
  | nil : JsonObj
  | cons : String → Json → JsonObj → JsonObj

end

/-- Lookup of a key in a JSON object (first occurrence, as in a Python
dict where keys are unique). -/
def JsonObj.get : JsonObj → String → Option Json
  | .nil, _ => none
  | .cons k v tl, key => if k = key then some v else tl.get key

/-- The list of keys of a JSON object, in order. -/
def JsonObj.keys : JsonObj → List String
  | .nil => []
  | .cons k _ tl => k :: tl.keys

/-- Field lookup on a JSON value: defined on objects, none otherwise. -/
def Json.getField : Json → String → Option Json
  | .jobj fs, key => fs.get key
  | _, _ => none

/-- Top-level keys of a JSON value: the key list for objects, empty
otherwise. -/
def Json.topKeys : Json → List String
  | .jobj fs => fs.keys
  | _ => []

/-- An HTTP response: a status code and a JSON body.  flask.jsonify
returns status 200 with the serialized argument as body. -/
structure Response where
  status : Nat
  body : Json

/-- Handler for GET /health (server.py, function health): returns
jsonify({status: "healthy", timestamp: datetime.now().isoformat(),
project: <the literal instance id>}).  The instance id is the string
literal embedded in the file; the clock reading is the input ts. -/
def health (projectId ts : String) : Response :=
  { status := 200
    body := .jobj (.cons "status" (.jstr "healthy")
                  (.cons "timestamp" (.jstr ts)
                  (.cons "project" (.jstr projectId) .nil))) }

/-- Handler for GET /api/projects (server.py, function get_projects):
returns jsonify({message: "Projects API endpoint", project: <id>,
timestamp: <clock>}). -/
def get_projects (projectId ts : String) : Response :=
  { status := 200
    body := .jobj (.cons "message" (.jstr "Projects API endpoint")
                  (.cons "project" (.jstr projectId)
                  (.cons "timestamp" (.jstr ts) .nil))) }

/-- Handler for POST /api/projects (server.py, function create_project):
data = request.get_json(); returns jsonify({message: "Project created",
data: data, timestamp: <clock>}).  The argument v is the parsed request
body.  Python represents a parsed JSON null as None, which is also what
request.get_json() returns when the parser yields no value, so both cases
reach this handler as Json.null.  Unlike the two GET handlers, this
function never mentions the instance identifier. -/
def create_project (v : Json) (ts : String) : Response :=
  { status := 200
    body := .jobj (.cons "message" (.jstr "Project created")
                  (.cons "data" v
                  (.cons "timestamp" (.jstr ts) .nil))) }

/-- Modelled from the spec: the default parse-error response of the host
framework (Flask) when the POST body is not valid JSON.  The spec fixes
only that it is a generic client error (4xx) and not a crash; the body is
not specified, and the Flask code itself is not part of this repository. -/
def frameworkBadRequest : Response :=
  { status := 400, body := .jstr "Bad Request" }

/-- A request to one of the three routes.  For POST /api/projects the
payload is the outcome of the framework JSON parse of the raw body:
some v when the body parses to the JSON value v, none when it is not
valid JSON. -/
inductive Request where
  | getHealth : Request
  | getProjects : Request
  | postProjects : Option Json → Request

/-- The request dispatcher of one instance: routes each request to the
corresponding handler of server.py; an unparsable POST body is answered
by the framework default error response. -/
def handle (projectId : String) (req : Request) (ts : String) : Response :=
  match req with
  | .getHealth => health projectId ts
  | .getProjects => get_projects projectId ts
  | .postProjects (some v) => create_project v ts
  | .postProjects none => frameworkBadRequest

/-- The six instance identifiers embedded in the six copies of server.py
under src/data/projects/. -/
def instanceIds : List String :=
  [ "0d5e630e-d302-4f92-b4ef-f1645b372a43"
  , "89cd361a-94b3-4ffa-bdaa-e6728658f6de"
  , "a908e135-0a1d-4e2a-8242-bd40240a1383"
  , "acc4aa53-0435-4c50-b4fd-92bc81f3c495"
  , "b6f6f351-eac3-48fd-be53-4481db9ade2a"
  , "eb43a8a3-f1b3-41e1-a900-885fc864eef7" ]

mutual

/-- Textual substitution of one identifier string for another inside a
JSON value: every string value equal to p is replaced by q.  This is the
formal meaning of the phrase in the spec about substituting one instance
identifier for the other; it is not code of the repository. -/
def Json.subst (p q : String) : Json → Json
  | .null => .null
  | .jbool b => .jbool b
  | .jnum n => .jnum n
  | .jstr s => .jstr (if s = p then q else s)
  | .jarr xs => .jarr (xs.subst p q)
  | .jobj fs => .jobj (fs.subst p q)

/-- Substitution mapped over a JSON array. -/
def JsonArr.subst (p q : String) : JsonArr → JsonArr
  | .nil => .nil
  | .cons x tl => .cons (x.subst p q) (tl.subst p q)

/-- Substitution mapped over the values of a JSON object (keys are left
alone; the identifiers never occur as keys). -/
def JsonObj.subst (p q : String) : JsonObj → JsonObj
  | .nil => .nil
  | .cons k v tl => .cons k (v.subst p q) (tl.subst p q)

end

mutual

/-- Whether the string p occurs as a string value inside a JSON value. -/
def Json.mentions (p : String) : Json → Bool
  | .null => false
  | .jbool _ => false
  | .jnum _ => false
  | .jstr s => s = p
  | .jarr xs => xs.mentions p
  | .jobj fs => fs.mentions p

/-- Occurrence check mapped over a JSON array. -/
def JsonArr.mentions (p : String) : JsonArr → Bool
  | .nil => false
  | .cons x tl => x.mentions p || tl.mentions p

/-- Occurrence check mapped over the values of a JSON object. -/
def JsonObj.mentions (p : String) : JsonObj → Bool
  | .nil => false
  | .cons _ v tl => v.mentions p || tl.mentions p

end

/-- Substitution lifted to a response: the status is untouched and the
body is substituted. -/
def Response.substId (p q : String) (r : Response) : Response :=
  { status := r.status, body := r.body.subst p q }

/-- Whether the string p occurs as a string value in the payload of a
request (only a POST carries a payload). -/
def Request.mentions (p : String) : Request → Bool
  | .postProjects (some v) => v.mentions p
  | _ => false

mutual

/-- Substitution is the identity on a JSON value that does not mention
the substituted string. -/
theorem Json.subst_eq_self (p q : String) :
    ∀ v : Json, v.mentions p = false → v.subst p q = v
  | .null, _ => rfl
  | .jbool _, _ => rfl
  | .jnum _, _ => rfl
  | .jstr s, h => by
      simp only [Json.mentions, decide_eq_false_iff_not] at h
      simp [Json.subst, h]
  | .jarr xs, h => by
      simp only [Json.subst, JsonArr.subst_arr_eq_self p q xs (by simpa [Json.mentions] using h)]
  | .jobj fs, h => by
      simp only [Json.subst, JsonObj.subst_obj_eq_self p q fs (by simpa [Json.mentions] using h)]

/-- Array version of Json.subst_eq_self. -/
theorem JsonArr.subst_arr_eq_self (p q : String) :
    ∀ xs : JsonArr, xs.mentions p = false → xs.subst p q = xs
  | .nil, _ => rfl
  | .cons x tl, h => by
      simp only [JsonArr.mentions, Bool.or_eq_false_iff] at h
      simp only [JsonArr.subst, Json.subst_eq_self p q x h.1,
        JsonArr.subst_arr_eq_self p q tl h.2]

/-- Object version of Json.subst_eq_self. -/
theorem JsonObj.subst_obj_eq_self (p q : String) :
    ∀ fs : JsonObj, fs.mentions p = false → fs.subst p q = fs
  | .nil, _ => rfl
  | .cons k v tl, h => by
      simp only [JsonObj.mentions, Bool.or_eq_false_iff] at h
      simp only [JsonObj.subst, Json.subst_eq_self p q v h.1,
        JsonObj.subst_obj_eq_self p q tl h.2]

end

/-- The value returned by os.environ.get(key, default): either the
string bound to key in the environment, or the (integer) default.  Python
is dynamically typed, so the two cases carry different types. -/
inductive PyVal where
  | pstr : String → PyVal
  | pint : Int → PyVal

/-- os.environ.get(key, default) over an environment modelled as a map
from variable names to optional string values. -/
def environGet (env : String → Option String) (key : String) (dflt : PyVal) : PyVal :=
  match env key with
  | some v => .pstr v
  | none => dflt

/-- Whitespace stripping on a character list, as str.strip() does before
int() parses a string. -/
def stripWs (cs : List Char) : List Char :=
  ((cs.dropWhile Char.isWhitespace).reverse.dropWhile Char.isWhitespace).reverse

/-- Validity of the digit part of a Python base-10 integer literal after
its first character: each later character is a digit, or an underscore
immediately preceded by a digit; an underscore must also be followed by a
digit, which holds because a character after an underscore must itself be
a digit, and the final character must be a digit. -/
def digitsRest (prev : Char) : List Char → Bool
  | [] => prev.isDigit
  | c :: rest => (c.isDigit || (c == '_' && prev.isDigit)) && digitsRest c rest

/-- Validity of the digit part of a Python base-10 integer literal:
nonempty, starts with a digit, underscores only between digits. -/
def validDigits : List Char → Bool
  | [] => false
  | c :: rest => c.isDigit && digitsRest c rest

/-- Numeric value of a valid digit part, skipping underscores. -/
def digitsToNat (ds : List Char) : Nat :=
  ds.foldl (fun a c => if c == '_' then a else 10 * a + (c.toNat - 48)) 0

/-- Python int(s) for a string s with the default base 10: strip
whitespace, read an optional sign and a digit sequence; raise ValueError
(modelled as Except.error) on anything else. -/
def pyIntOfString (s : String) : Except String Int :=
  let cs := stripWs s.toList
  let sd : Int × List Char :=
    match cs with
    | '-' :: rest => (-1, rest)
    | '+' :: rest => (1, rest)
    | _ => (1, cs)
  if validDigits sd.2 then
    .ok (sd.1 * (digitsToNat sd.2 : Int))
  else
    .error ("invalid literal for int with base 10: " ++ s)

/-- Python int applied to the dynamically typed result of
os.environ.get: the identity on integers, string parsing on strings. -/
def pyInt : PyVal → Except String Int
  | .pint n => .ok n
  | .pstr s => pyIntOfString s

/-- The arguments the __main__ block passes to app.run. -/
structure RunConfig where
  host : String
  port : Int

/-- The __main__ block of server.py: port = int(os.environ.get(PORT,
5000)); app.run(host=0.0.0.0, port=port, debug=True).  A ValueError from
int propagates and startup fails. -/
def startup (env : String → Option String) : Except String RunConfig :=
  match pyInt (environGet env "PORT" (.pint 5000)) with
  | .ok p => .ok { host := "0.0.0.0", port := p }
  | .error e => .error e

/-- C1: for every valid JSON value v posted as the body of
POST /api/projects, the handler returns status 200 with a body whose
data field deep-equals v exactly, whose message field equals
"Project created", and which also carries a timestamp field. -/
theorem create_project_echoes_body (v : Json) (ts : String) :
    (create_project v ts).status = 200 ∧
    (create_project v ts).body.getField "data" = some v ∧
    (create_project v ts).body.getField "message" = some (.jstr "Project created") ∧
    ((create_project v ts).body.getField "timestamp").isSome = true :=
  ⟨rfl, rfl, rfl, rfl⟩

/-- C2: every invocation of GET /health returns status 200 with a body
having exactly the fields status, timestamp and project, where status
equals "healthy"; the handler has no inputs beyond the clock and no
error branch, so it succeeds for every identifier and clock reading. -/
theorem health_response_shape (projectId ts : String) :
    (health projectId ts).status = 200 ∧
    (health projectId ts).body.topKeys = ["status", "timestamp", "project"] ∧
    (health projectId ts).body.getField "status" = some (.jstr "healthy") :=
  ⟨rfl, rfl, rfl⟩

/-- C6: every invocation of GET /api/projects returns status 200 with a
body having exactly the fields message, project and timestamp, where
message equals "Projects API endpoint"; the response is a static shape
over the identifier and the clock reading. -/
theorem get_projects_response_shape (projectId ts : String) :
    (get_projects projectId ts).status = 200 ∧
    (get_projects projectId ts).body.topKeys = ["message", "project", "timestamp"] ∧
    (get_projects projectId ts).body.getField "message"
      = some (.jstr "Projects API endpoint") :=
  ⟨rfl, rfl, rfl⟩

/-- C4: for every instance of the repository, the project field returned
by GET /health and by GET /api/projects equals that instance's single
static identifier string, the same string for both endpoints, at all
clock readings. -/
theorem project_field_is_instance_id (pid : String) (_hp : pid ∈ instanceIds)
    (ts₁ ts₂ : String) :
    (health pid ts₁).body.getField "project" = some (.jstr pid) ∧
    (get_projects pid ts₂).body.getField "project" = some (.jstr pid) :=
  ⟨rfl, rfl⟩

/-- Witness for C4 at the first instance identifier. -/
theorem project_field_is_instance_id_check :
    "0d5e630e-d302-4f92-b4ef-f1645b372a43" ∈ instanceIds ∧
    ((health "0d5e630e-d302-4f92-b4ef-f1645b372a43" "2024-01-01T00:00:00").body.getField
        "project" = some (.jstr "0d5e630e-d302-4f92-b4ef-f1645b372a43") ∧
      (get_projects "0d5e630e-d302-4f92-b4ef-f1645b372a43" "2024-01-01T00:00:01").body.getField
        "project" = some (.jstr "0d5e630e-d302-4f92-b4ef-f1645b372a43")) :=
  ⟨by decide,
   project_field_is_instance_id "0d5e630e-d302-4f92-b4ef-f1645b372a43" (by decide)
     "2024-01-01T00:00:00" "2024-01-01T00:00:01"⟩

/-- C3: a POST /api/projects whose body is not valid JSON is answered by
the framework default parse-error response, a client error (4xx), and
the dispatcher is a total function, so the process does not crash; every
other request is answered with status 200, so this is the only failure
mode of the service. -/
theorem post_bad_json_client_error (projectId ts : String) (req : Request) :
    (req = .postProjects none →
      400 ≤ (handle projectId req ts).status ∧ (handle projectId req ts).status < 500) ∧
    (req ≠ .postProjects none → (handle projectId req ts).status = 200) := by
  constructor
  · rintro rfl
    refine ⟨?_, ?_⟩ <;> simp [handle, frameworkBadRequest]
  · intro h
    match req, h with
    | .getHealth, _ => rfl
    | .getProjects, _ => rfl
    | .postProjects (some v), _ => rfl
    | .postProjects none, h => exact absurd rfl h

/-- Witness for C3: the bad-JSON POST gets a 4xx and a well-formed GET
gets a 200. -/
theorem post_bad_json_client_error_check :
    (400 ≤ (handle "0d5e630e-d302-4f92-b4ef-f1645b372a43" (.postProjects none)
        "2024-01-01T00:00:00").status ∧
      (handle "0d5e630e-d302-4f92-b4ef-f1645b372a43" (.postProjects none)
        "2024-01-01T00:00:00").status < 500) ∧
    (handle "0d5e630e-d302-4f92-b4ef-f1645b372a43" .getHealth
        "2024-01-01T00:00:00").status = 200 :=
  ⟨(post_bad_json_client_error "0d5e630e-d302-4f92-b4ef-f1645b372a43"
      "2024-01-01T00:00:00" (.postProjects none)).1 rfl,
   (post_bad_json_client_error "0d5e630e-d302-4f92-b4ef-f1645b372a43"
      "2024-01-01T00:00:00" .getHealth).2 (fun h => Request.noConfusion h)⟩

/-- C9: when the parsed POST payload is the JSON value null (which is
also how Python represents a parser that yielded no value, namely None),
the handler still returns status 200 with message "Project created" and
a data field equal to null. -/
theorem create_project_null_payload (ts : String) :
    (create_project Json.null ts).status = 200 ∧
    (create_project Json.null ts).body.getField "message"
      = some (.jstr "Project created") ∧
    (create_project Json.null ts).body.getField "data" = some Json.null :=
  ⟨rfl, rfl, rfl⟩

/-- C7 counterexample: the claim over every request is false.  A POST
whose payload is the first instance's identifier itself falsifies the
unguarded equation: create_project echoes the payload verbatim and never
mentions the identifier, so both instances return that very string in
the data field, and substituting the first identifier for the second in
the first instance's response corrupts the echoed payload while the
second instance's response keeps it. -/
theorem instances_equal_up_to_id_cex :
    ¬ ((handle "0d5e630e-d302-4f92-b4ef-f1645b372a43"
        (.postProjects (some (.jstr "0d5e630e-d302-4f92-b4ef-f1645b372a43")))
        "2024-01-01T00:00:00").substId
        "0d5e630e-d302-4f92-b4ef-f1645b372a43" "89cd361a-94b3-4ffa-bdaa-e6728658f6de"
      = handle "89cd361a-94b3-4ffa-bdaa-e6728658f6de"
        (.postProjects (some (.jstr "0d5e630e-d302-4f92-b4ef-f1645b372a43")))
        "2024-01-01T00:00:00") := by
  intro h
  have h2 : some (Json.jstr "89cd361a-94b3-4ffa-bdaa-e6728658f6de")
      = some (Json.jstr "0d5e630e-d302-4f92-b4ef-f1645b372a43") :=
    congrArg (fun r => r.body.getField "data") h
  exact absurd (Json.jstr.inj (Option.some.inj h2)) (by decide)

/-- C7 as amended: for every pair of instances in the repository and
every request, the two instances' dispatchers produce responses that are
equal after substituting one instance's identifier string for the
other's, provided the substituted identifier does not itself occur as a
string value in the request payload or as the clock reading (without
that proviso the substitution corrupts an echoed payload equal to the
identifier, as the counterexample shows); the instances differ in no
other observable behavior. -/
theorem instances_equal_up_to_id (p q : String) (hp : p ∈ instanceIds)
    (_hq : q ∈ instanceIds) (req : Request) (ts : String)
    (hts : ts ≠ p) (hreq : req.mentions p = false) :
    (handle p req ts).substId p q = handle q req ts := by
  have hcst : "healthy" ≠ p ∧ "Projects API endpoint" ≠ p ∧
      "Project created" ≠ p ∧ "Bad Request" ≠ p := by
    simp only [instanceIds, List.mem_cons, List.not_mem_nil, or_false] at hp
    rcases hp with rfl | rfl | rfl | rfl | rfl | rfl <;>
      exact ⟨by decide, by decide, by decide, by decide⟩
  obtain ⟨h1, h2, h3, h4⟩ := hcst
  cases req with
  | getHealth =>
      simp [handle, health, Response.substId, Json.subst, JsonObj.subst, h1, hts]
  | getProjects =>
      simp [handle, get_projects, Response.substId, Json.subst, JsonObj.subst, h2, hts]
  | postProjects ov =>
      cases ov with
      | none =>
          simp [handle, frameworkBadRequest, Response.substId, Json.subst, h4]
      | some v =>
          have hv : v.mentions p = false := by
            simpa [Request.mentions] using hreq
          simp [handle, create_project, Response.substId, Json.subst, JsonObj.subst,
            h3, hts, Json.subst_eq_self p q v hv]

/-- Witness for C7: the first and second instances, on a POST of the
object from the spec's example, give equal responses after substituting
the first identifier for the second. -/
theorem instances_equal_up_to_id_check :
    "0d5e630e-d302-4f92-b4ef-f1645b372a43" ∈ instanceIds ∧
    "89cd361a-94b3-4ffa-bdaa-e6728658f6de" ∈ instanceIds ∧
    "2024-01-01T00:00:00" ≠ "0d5e630e-d302-4f92-b4ef-f1645b372a43" ∧
    (Request.postProjects
        (some (.jobj (.cons "name" (.jstr "demo") .nil)))).mentions
      "0d5e630e-d302-4f92-b4ef-f1645b372a43" = false ∧
    (handle "0d5e630e-d302-4f92-b4ef-f1645b372a43"
        (.postProjects (some (.jobj (.cons "name" (.jstr "demo") .nil))))
        "2024-01-01T00:00:00").substId
        "0d5e630e-d302-4f92-b4ef-f1645b372a43" "89cd361a-94b3-4ffa-bdaa-e6728658f6de"
      = handle "89cd361a-94b3-4ffa-bdaa-e6728658f6de"
        (.postProjects (some (.jobj (.cons "name" (.jstr "demo") .nil))))
        "2024-01-01T00:00:00" :=
  ⟨by decide, by decide, by decide, rfl,
   instances_equal_up_to_id "0d5e630e-d302-4f92-b4ef-f1645b372a43"
     "89cd361a-94b3-4ffa-bdaa-e6728658f6de" (by decide) (by decide)
     (.postProjects (some (.jobj (.cons "name" (.jstr "demo") .nil))))
     "2024-01-01T00:00:00" (by decide) rfl⟩

/-- C8: at startup, the listening port equals the integer value of the
PORT environment variable when that variable is set (and parses), and
equals 5000 when it is unset; the bind host is 0.0.0.0 in both cases. -/
theorem startup_port_configuration (env : String → Option String) :
    (∀ s n, env "PORT" = some s → pyIntOfString s = .ok n →
      startup env = .ok { host := "0.0.0.0", port := n }) ∧
    (env "PORT" = none → startup env = .ok { host := "0.0.0.0", port := 5000 }) := by
  constructor
  · intro s n hs hn
    simp [startup, environGet, hs, pyInt, hn]
  · intro h
    simp [startup, environGet, h, pyInt]

/-- Witness for C8: PORT set to 8080 yields port 8080; PORT unset yields
port 5000. -/
theorem startup_port_configuration_check :
    (fun k => if k = "PORT" then some "8080" else none) "PORT" = some "8080" ∧
    pyIntOfString "8080" = .ok 8080 ∧
    startup (fun k => if k = "PORT" then some "8080" else none)
      = .ok { host := "0.0.0.0", port := 8080 } ∧
    (fun _ => (none : Option String)) "PORT" = none ∧
    startup (fun _ => (none : Option String))
      = .ok { host := "0.0.0.0", port := 5000 } :=
  ⟨rfl, rfl,
   (startup_port_configuration (fun k => if k = "PORT" then some "8080" else none)).1
     "8080" 8080 rfl rfl,
   rfl,
   (startup_port_configuration (fun _ => (none : Option String))).2 rfl⟩

/-- C10: if the PORT environment variable is set to a string that is not
a valid integer literal, startup fails with the error from the integer
conversion and in particular does not fall back to running on any port;
the fallback to 5000 applies only when PORT is unset. -/
theorem startup_invalid_port_fails (env : String → Option String) (s e : String)
    (hs : env "PORT" = some s) (he : pyIntOfString s = .error e) :
    startup env = .error e ∧ ∀ cfg : RunConfig, startup env ≠ .ok cfg := by
  have h : startup env = .error e := by
    simp [startup, environGet, hs, pyInt, he]
  refine ⟨h, fun cfg hc => ?_⟩
  rw [h] at hc
  exact Except.noConfusion hc

/-- Witness for C10: PORT set to the string abc makes startup fail with
a ValueError-style message. -/
theorem startup_invalid_port_fails_check :
    (fun k => if k = "PORT" then some "abc" else none) "PORT" = some "abc" ∧
    pyIntOfString "abc" = .error "invalid literal for int with base 10: abc" ∧
    startup (fun k => if k = "PORT" then some "abc" else none)
      = .error "invalid literal for int with base 10: abc" :=
  ⟨rfl, rfl,
   (startup_invalid_port_fails (fun k => if k = "PORT" then some "abc" else none)
     "abc" "invalid literal for int with base 10: abc" rfl rfl).1⟩
